import Mathlib

/-!
Verification of the lockbox state-synchronization bridge.

Shallow embedding of the Python sources:
  * `server/app_game_control.py` — `LockboxController`: joystick frame decoding
    (`_process_arduino_message`), LED writes (`set_led_values`), diagnostics
    (`run_diagnostic`), and the communication loop's reconnect logic
    (`_communication_loop` / `_attempt_reconnect`).
  * `server/ws_server.py` — `LockboxWebSocketServer`: client registration,
    authentication (`authenticate_client`), broadcast (`send_to_all_clients`,
    `send_to_client`, `unregister_client`) and state snapshots
    (`send_state_to_client`).

Strings are modelled as `List Char`; machine integers never overflow here
(Python integers are unbounded), so values are `Int`/`Nat`.  All exception
paths inside the translated functions are caught in the Python source, so the
embeddings are total functions on the state.
-/

namespace Lockbox

/-! ### Python string/int primitives used by the decoder

`int(str)` in Python strips surrounding whitespace, accepts one optional
sign, then a non-empty digit sequence in which single underscores may
separate digits.  We model the ASCII fragment of this behaviour; the decoder
only ever sees ASCII serial data. -/

/-- ASCII whitespace stripped by Python's `str.strip()` / `int(str)`. -/
def isPySpace (c : Char) : Bool :=
  c = ' ' || c = '\t' || c = '\n' || c = '\r' || c = '\x0b' || c = '\x0c'

/-- Strip leading and trailing Python whitespace. -/
def stripPy (l : List Char) : List Char :=
  ((l.dropWhile isPySpace).reverse.dropWhile isPySpace).reverse

/-- Numeric value of an ASCII digit. -/
def digitVal (c : Char) : Nat := c.toNat - 48

/-- Accumulate the remaining digits of a Python integer literal: after the
first digit, each further digit may be preceded by a single underscore. -/
def pyDigitsAux : Nat → List Char → Option Nat
  | acc, [] => some acc
  | acc, '_' :: d :: rest =>
      if d.isDigit then pyDigitsAux (acc * 10 + digitVal d) rest else none
  | _, ['_'] => none
  | acc, c :: rest =>
      if c.isDigit then pyDigitsAux (acc * 10 + digitVal c) rest else none

/-- A non-empty digit sequence (underscore-separated) as in Python `int`. -/
def pyDigits : List Char → Option Nat
  | [] => none
  | c :: rest => if c.isDigit then pyDigitsAux (digitVal c) rest else none

/-- Python's `int(s)` on a string: strip whitespace, optional sign, digits.
Returns `none` where Python raises `ValueError`. -/
def pyInt (l : List Char) : Option Int :=
  match stripPy l with
  | '+' :: rest => (pyDigits rest).map (fun n => (n : Int))
  | '-' :: rest => (pyDigits rest).map (fun n => -(n : Int))
  | rest => (pyDigits rest).map (fun n => (n : Int))

/-- Python's `str.split(',')`: always returns at least one (possibly empty)
field, and empty fields between consecutive commas are kept. -/
def splitComma : List Char → List (List Char)
  | [] => [[]]
  | c :: rest =>
    if c = ',' then [] :: splitComma rest
    else
      match splitComma rest with
      | [] => [[c]]
      | f :: fs => (c :: f) :: fs

/-! ### Controller state (`LockboxController.__init__`) -/

/-- The `joystick_values` dict of `LockboxController`. -/
structure JoyState where
  joystick1 : Int
  joystick2 : Int
  joystick3 : Int
  joystick1X : Int
  joystick1Y : Int
  joystick2X : Int
  joystick2Y : Int
  joystick3X : Int
  joystick3Y : Int
deriving DecidableEq, Repr

/-- Initial joystick values: every entry starts at 512 (centre). -/
def initJoystickValues : JoyState :=
  ⟨512, 512, 512, 512, 512, 512, 512, 512, 512⟩

/-- The `led_values` dict of `LockboxController`. -/
structure LedState where
  led1 : Int
  led2 : Int
  led3 : Int
deriving DecidableEq, Repr

/-- Initial LED values: all channels 0. -/
def initLedValues : LedState := ⟨0, 0, 0⟩

/-- The persistent fields of `LockboxController` the claims range over.
`serial_connection` records whether a serial object exists (Python
truthiness of `self.serial_connection`). -/
structure ControllerState where
  joystick_values : JoyState
  led_values : LedState
  connected : Bool
  serial_connection : Bool
deriving DecidableEq, Repr

/-! ### `_process_arduino_message` (app_game_control.py lines 223-274)

The Python code converts all six fields with `int(...)` before the first
assignment to `self.joystick_values`, and any conversion error is caught by
the surrounding `try`, so an update is all-or-nothing; every exception path
is caught, hence the embedding is a total function on `JoyState`. -/

/-- `LockboxController._process_arduino_message`.  Only the joystick state
can change; the callback invocation carries no state and is omitted. -/
def process_arduino_message (jv : JoyState) (message : List Char) : JoyState :=
  if message.isEmpty then jv
  else if message.head? = some '<' ∧ message.getLast? = some '>' then
    let content := (message.drop 1).dropLast
    if content.head? = some 'J' then
      match splitComma (content.drop 1) with
      | [s0, s1, s2, s3, s4, s5] =>
        match pyInt s0, pyInt s1, pyInt s2, pyInt s3, pyInt s4, pyInt s5 with
        | some j1x, some j1y, some j2x, some j2y, some j3x, some j3y =>
          { joystick1 := j1x, joystick2 := j2x, joystick3 := j3x,
            joystick1X := j1x, joystick1Y := j1y,
            joystick2X := j2x, joystick2Y := j2y,
            joystick3X := j3x, joystick3Y := j3y }
        | _, _, _, _, _, _ => jv
      | _ => jv
    else jv
  else jv

/-- The inbound line shape of the spec, stated independently of the decoder:
the character `<`, then `J`, then six comma-separated integer fields, then
`>`.  A field counts as an integer exactly when the code's integer
conversion (Python `int`) accepts it, i.e. optional surrounding whitespace
and an optional sign are allowed around the digits. -/
def matchesInboundShape (message : List Char) : Bool :=
  !message.isEmpty &&
  decide (message.head? = some '<') && decide (message.getLast? = some '>') &&
  (let content := (message.drop 1).dropLast
   decide (content.head? = some 'J') &&
   (match splitComma (content.drop 1) with
    | [s0, s1, s2, s3, s4, s5] =>
      (pyInt s0).isSome && (pyInt s1).isSome && (pyInt s2).isSome &&
      (pyInt s3).isSome && (pyInt s4).isSome && (pyInt s5).isSome
    | _ => false))

/-! ### `set_led_values` (app_game_control.py lines 276-305) -/

/-- The state-store half of `set_led_values`: each provided channel is
written as `max(0, min(255, v))`, each omitted channel is left alone. -/
def apply_led_update (l : LedState) (led1 led2 led3 : Option Int) : LedState :=
  let l1 := match led1 with
    | some v => { l with led1 := max 0 (min 255 v) }
    | none => l
  let l2 := match led2 with
    | some v => { l1 with led2 := max 0 (min 255 v) }
    | none => l1
  match led3 with
  | some v => { l2 with led3 := max 0 (min 255 v) }
  | none => l2

/-- `LockboxController.set_led_values`.  The store is updated first; the
serial write is attempted only when `connected` and a serial object exists,
and `writeOk` says whether `serial_connection.write` succeeds (its failure
is caught and turned into a `False` return).  Returns the new state and the
boolean result. -/
def set_led_values (c : ControllerState) (led1 led2 led3 : Option Int)
    (writeOk : Bool) : ControllerState × Bool :=
  let c' := { c with led_values := apply_led_update c.led_values led1 led2 led3 }
  if c'.connected && c'.serial_connection then (c', writeOk) else (c', false)

/-- `LockboxController.get_joystick_values` (returns a copy). -/
def get_joystick_values (c : ControllerState) : JoyState := c.joystick_values

/-- `LockboxController.get_led_values` (returns a copy). -/
def get_led_values (c : ControllerState) : LedState := c.led_values

/-- `LockboxController.get_connection_status`. -/
def get_connection_status (c : ControllerState) : Bool := c.connected

/-! ### `run_diagnostic` (app_game_control.py lines 358-392) -/

/-- The parts of the diagnostic result dict the claims mention. -/
structure DiagResults where
  connected : Bool
  joysticks : JoyState
  leds : LedState
  led_test : Bool
deriving DecidableEq, Repr

/-- `LockboxController.run_diagnostic`: snapshot the state, and when
connected write the 128,128,128 test pattern and then restore the saved LED
values.  `writeOk1`/`writeOk2` are the outcomes of the two serial writes. -/
def run_diagnostic (c : ControllerState) (writeOk1 writeOk2 : Bool) :
    ControllerState × DiagResults :=
  let base : DiagResults :=
    ⟨c.connected, get_joystick_values c, get_led_values c, false⟩
  if c.connected then
    let saved := get_led_values c
    let r1 := set_led_values c (some 128) (some 128) (some 128) writeOk1
    let r2 := set_led_values r1.1
      (some saved.led1) (some saved.led2) (some saved.led3) writeOk2
    (r2.1, { base with led_test := r1.2 })
  else (c, base)

/-! ### The state snapshot sent to clients
(`LockboxWebSocketServer.send_state_to_client`, ws_server.py 198-218) -/

/-- The device-state part of the `type:"state"` message: joysticks, LEDs and
the Arduino connection flag (the `server_info` block carries no device
state). -/
structure StateMessage where
  joysticks : JoyState
  leds : LedState
  arduino_connected : Bool
deriving DecidableEq, Repr

/-- Build the snapshot exactly as `send_state_to_client` does, from the
controller's getters. -/
def state_message (c : ControllerState) : StateMessage :=
  ⟨get_joystick_values c, get_led_values c, get_connection_status c⟩

/-! ### The communication loop (`_communication_loop`, lines 158-221)

One iteration of the `while self.running` loop, as a step function over the
loop-relevant state.  The environment of an iteration is a `LoopEvent`:
whether the data timeout has expired, whether accessing the serial port
raises `SerialException`, whether a non-empty line is read and processed,
and whether a `connect()` inside `_attempt_reconnect` succeeds.  The ghost
field `failedRun` counts consecutive failed reconnection attempts with no
intervening successfully received data; the code never touches it. -/

/-- `max_reconnect_attempts = 5` (line 161). -/
def max_reconnect_attempts : Nat := 5

/-- Environment of one loop iteration. -/
structure LoopEvent where
  timedOut : Bool
  serialExn : Bool
  dataReady : Bool
  connectOk : Bool
deriving DecidableEq, Repr

/-- Loop-relevant state: the `running`/`connected` flags, the local
`reconnect_attempts` counter, and the ghost counter `failedRun`. -/
structure LoopState where
  running : Bool
  connected : Bool
  reconnect_attempts : Nat
  failedRun : Nat
deriving DecidableEq, Repr

/-- State at entry of `_communication_loop`: started after a successful
`connect()`, so `connected` is true and `reconnect_attempts = 0`. -/
def initLoopState : LoopState :=
  ⟨true, true, 0, 0⟩

/-- One iteration of `_communication_loop`.
* Timeout branch (166-172): when the timeout expired while connected, set
  `connected := False`; with auto-reconnect, `_attempt_reconnect` runs (its
  `connect()` either succeeds or leaves `connected` false) and the loop
  `continue`s, without touching `reconnect_attempts`.
* Read branch (174-185): a `SerialException` from the serial object reaches
  the outer handler (190-199): with auto-reconnect and
  `reconnect_attempts < max_reconnect_attempts` the counter is incremented
  and a reconnect attempted, otherwise the loop `break`s.  A successfully
  processed non-empty line resets `reconnect_attempts` to 0.
* All other exceptions are caught and change nothing. -/
def comm_step (auto_reconnect : Bool) (s : LoopState) (e : LoopEvent) : LoopState :=
  if !s.running then s
  else if e.timedOut && s.connected then
    if auto_reconnect then
      if e.connectOk then { s with connected := true }
      else { s with connected := false, failedRun := s.failedRun + 1 }
    else { s with connected := false }
  else if s.connected && e.serialExn then
    if auto_reconnect && decide (s.reconnect_attempts < max_reconnect_attempts) then
      if e.connectOk then
        { s with connected := true, reconnect_attempts := s.reconnect_attempts + 1 }
      else
        { s with connected := false, reconnect_attempts := s.reconnect_attempts + 1,
                 failedRun := s.failedRun + 1 }
    else { s with connected := false, running := false }
  else if s.connected && e.dataReady then
    { s with reconnect_attempts := 0, failedRun := 0 }
  else s

/-- Run the loop over a finite trace of iteration environments. -/
def comm_run (auto_reconnect : Bool) (s : LoopState) (es : List LoopEvent) : LoopState :=
  es.foldl (comm_step auto_reconnect) s

/-! ### WebSocket server (`ws_server.py`)

Client sessions are identified by their Python `id(websocket)`, modelled as
a natural number.  The `clients` and `authenticated_clients` Python sets are
modelled as lists read up to membership; `set.add` inserts when absent and
`set.discard` removes.  `client_info` maps a session id to its metadata
entry when present. -/

/-- The fields of a `client_info` entry that the claims mention. -/
structure ClientInfo where
  authenticated : Bool
  is_admin : Bool
deriving DecidableEq, Repr

/-- Server state: the two client sets, the metadata map, and the configured
admin token. -/
structure ServerState where
  clients : List Nat
  authenticated_clients : List Nat
  client_info : Nat → Option ClientInfo
  admin_token : List Char

/-- Python `set.add`: insert if not already present. -/
def setAdd (l : List Nat) (w : Nat) : List Nat :=
  if w ∈ l then l else w :: l

/-- Python `set.discard`: remove the element if present. -/
def setDiscard (l : List Nat) (w : Nat) : List Nat :=
  l.filter (fun x => x ≠ w)

/-- `LockboxWebSocketServer.unregister_client`: discard the session from
both sets and drop its `client_info` entry. -/
def unregister_client (s : ServerState) (w : Nat) : ServerState :=
  { s with
    clients := setDiscard s.clients w,
    authenticated_clients := setDiscard s.authenticated_clients w,
    client_info := fun c => if c = w then none else s.client_info c }

/-- `LockboxWebSocketServer.authenticate_client`: `is_admin` is the equality
of the token with the admin token; any non-empty token (Python truthiness)
authenticates, adds the session to the authenticated set and updates its
metadata entry when one exists; an empty token changes nothing and returns
`False`. -/
def authenticate_client (s : ServerState) (w : Nat) (token : List Char) :
    ServerState × Bool :=
  let is_admin : Bool := decide (token = s.admin_token)
  if token ≠ [] then
    ({ s with
       authenticated_clients := setAdd s.authenticated_clients w,
       client_info := fun c =>
         if c = w then
           (s.client_info w).map
             (fun i => { i with authenticated := true, is_admin := is_admin })
         else s.client_info c }, true)
  else (s, false)

/-- `LockboxWebSocketServer.send_to_client`: when the session's socket is
closed the send raises `ConnectionClosed`, which is caught and triggers
`unregister_client`; otherwise the message is delivered.  (The
`messages_sent` counter is not part of any claim and is omitted.)  Returns
the new state and whether the message was delivered. -/
def send_to_client (s : ServerState) (closed : Nat → Bool) (w : Nat) :
    ServerState × Bool :=
  if closed w then (unregister_client s w, false) else (s, true)

/-- One send task of the broadcast: send to `w` from the current state,
recording `w` as delivered when the send succeeded. -/
def broadcast_step (closed : Nat → Bool) (acc : ServerState × List Nat)
    (w : Nat) : ServerState × List Nat :=
  let r := send_to_client acc.1 closed w
  (r.1, if r.2 then acc.2 ++ [w] else acc.2)

/-- `LockboxWebSocketServer.send_to_all_clients`: pick the target set (a
copy, so registrations/unregistrations during the sends do not change the
targets), send to every target, and gather the results — each per-session
send handles its own failure, so one failure never aborts the others.
Returns the final state and the ids that were actually delivered to. -/
def send_to_all_clients (s : ServerState) (closed : Nat → Bool)
    (authenticated_only : Bool) : ServerState × List Nat :=
  let targets := if authenticated_only then s.authenticated_clients else s.clients
  targets.foldl (broadcast_step closed) (s, [])

/-! ### Shared predicates and helper lemmas -/

/-- The documented LED range: every channel in [0, 255]. -/
abbrev ledInRange (l : LedState) : Prop :=
  0 ≤ l.led1 ∧ l.led1 ≤ 255 ∧ 0 ≤ l.led2 ∧ l.led2 ≤ 255 ∧ 0 ≤ l.led3 ∧ l.led3 ≤ 255

/-- The primary scalar of each joystick axis equals that axis's X value. -/
abbrev joyPrimaryEqX (jv : JoyState) : Prop :=
  jv.joystick1 = jv.joystick1X ∧ jv.joystick2 = jv.joystick2X ∧
  jv.joystick3 = jv.joystick3X

/-- The state returned by `set_led_values` is the LED-store update alone:
no other field changes, whatever the serial write does. -/
theorem set_led_values_fst (c : ControllerState) (led1 led2 led3 : Option Int)
    (writeOk : Bool) :
    (set_led_values c led1 led2 led3 writeOk).1 =
      { c with led_values := apply_led_update c.led_values led1 led2 led3 } := by
  unfold set_led_values
  dsimp only
  split <;> rfl

/-- The boolean result of `set_led_values` is the serial-write outcome when
connected with a serial object, and `false` otherwise. -/
theorem set_led_values_snd (c : ControllerState) (led1 led2 led3 : Option Int)
    (writeOk : Bool) :
    (set_led_values c led1 led2 led3 writeOk).2 =
      if c.connected && c.serial_connection then writeOk else false := by
  by_cases h1 : c.connected <;> by_cases h2 : c.serial_connection <;>
    simp [set_led_values, h1, h2]

/-- Every run of `_process_arduino_message` either leaves the joystick state
unchanged or overwrites it with six parsed integers, the primary scalars
copied from the X fields. -/
theorem process_arduino_message_cases (jv : JoyState) (msg : List Char) :
    process_arduino_message jv msg = jv ∨
    ∃ a b c d e f : Int,
      process_arduino_message jv msg = ⟨a, c, e, a, b, c, d, e, f⟩ := by
  unfold process_arduino_message
  dsimp only
  split
  · exact Or.inl rfl
  split
  · split
    · split
      · split
        · exact Or.inr ⟨_, _, _, _, _, _, rfl⟩
        · exact Or.inl rfl
      · exact Or.inl rfl
    · exact Or.inl rfl
  · exact Or.inl rfl

/-! ### Claim theorems -/

/-- C1 (counterexample): the six-integer line `<J2000,0,0,0,0,0>` contains
2000 ∉ [0, 1023], yet `_process_arduino_message` stores it raw: the stored
`joystick1` is 2000, not within [0, 1023], refuting the claim that stored
joystick values always stay within their documented range. -/
theorem joystick_out_of_range_stored_raw :
    (process_arduino_message initJoystickValues
        "<J2000,0,0,0,0,0>".data).joystick1 = 2000 ∧
    ¬ ((process_arduino_message initJoystickValues
          "<J2000,0,0,0,0,0>".data).joystick1 ≤ 1023) := by
  decide

/-- C1 (amended): LED channels are clamped to [0, 255] before storage and
stored LED values remain in range; joystick values, however, are stored
exactly as parsed, with no clamping or rejection — a line whose six fields
parse as integers overwrites the store with those raw integers, in or out
of [0, 1023]. -/
theorem led_clamped_joystick_raw :
    (∀ (c : ControllerState) (l1 l2 l3 : Option Int) (w : Bool),
       ledInRange c.led_values →
       ledInRange (set_led_values c l1 l2 l3 w).1.led_values) ∧
    (∀ (jv : JoyState) (body f1 f2 f3 f4 f5 f6 : List Char)
       (v1 v2 v3 v4 v5 v6 : Int),
       splitComma body = [f1, f2, f3, f4, f5, f6] →
       pyInt f1 = some v1 → pyInt f2 = some v2 → pyInt f3 = some v3 →
       pyInt f4 = some v4 → pyInt f5 = some v5 → pyInt f6 = some v6 →
       process_arduino_message jv ('<' :: 'J' :: body ++ ['>']) =
         ⟨v1, v3, v5, v1, v2, v3, v4, v5, v6⟩) := by
  constructor
  · intro c l1 l2 l3 w h
    rw [set_led_values_fst]
    obtain ⟨jv, lv, conn, ser⟩ := c
    obtain ⟨a, b, d⟩ := lv
    obtain ⟨ha1, ha2, hb1, hb2, hd1, hd2⟩ := h
    dsimp only at ha1 ha2 hb1 hb2 hd1 hd2
    cases l1 <;> cases l2 <;> cases l3 <;>
      simp [apply_led_update, ledInRange] <;> omega
  · intro jv body f1 f2 f3 f4 f5 f6 v1 v2 v3 v4 v5 v6 hsp h1 h2 h3 h4 h5 h6
    have hlast : ('J' :: (body ++ ['>']) : List Char).getLast? = some '>' := by
      rw [show ('J' :: (body ++ ['>']) : List Char) =
            ('J' :: body) ++ ['>'] by simp]
      exact List.getLast?_concat _
    have hdrop : ('J' :: (body ++ ['>']) : List Char).dropLast = 'J' :: body := by
      rw [show ('J' :: (body ++ ['>']) : List Char) =
            ('J' :: body) ++ ['>'] by simp]
      exact List.dropLast_concat
    simp [process_arduino_message, hlast, hdrop, hsp, h1, h2, h3, h4, h5, h6]

/-- C1 (amended, witness): a clamped LED write keeps the store in range,
and the out-of-range joystick line stores its raw values. -/
theorem led_clamped_joystick_raw_witness :
    ledInRange (set_led_values ⟨initJoystickValues, initLedValues, false, false⟩
      (some 999) none none false).1.led_values ∧
    process_arduino_message initJoystickValues
        ('<' :: 'J' :: "2000,0,0,0,0,0".data ++ ['>']) =
      ⟨2000, 0, 0, 2000, 0, 0, 0, 0, 0⟩ :=
  ⟨led_clamped_joystick_raw.1 _ _ _ _ _ (by decide),
   led_clamped_joystick_raw.2 initJoystickValues "2000,0,0,0,0,0".data
     "2000".data "0".data "0".data "0".data "0".data "0".data
     2000 0 0 0 0 0
     (by decide) (by decide) (by decide) (by decide) (by decide) (by decide)
     (by decide)⟩

/-- C3: `set_led_values` updates exactly the provided channels, storing each
clamped to [0, 255] via `max 0 (min 255 v)`, and leaves every omitted
(`none`) channel at its prior value — whatever the connection state or the
serial-write outcome. -/
theorem set_led_values_partial_update_clamps (c : ControllerState)
    (l1 l2 l3 : Option Int) (w : Bool) :
    (set_led_values c l1 l2 l3 w).1.led_values.led1 =
      (match l1 with
       | some v => max 0 (min 255 v)
       | none => c.led_values.led1) ∧
    (set_led_values c l1 l2 l3 w).1.led_values.led2 =
      (match l2 with
       | some v => max 0 (min 255 v)
       | none => c.led_values.led2) ∧
    (set_led_values c l1 l2 l3 w).1.led_values.led3 =
      (match l3 with
       | some v => max 0 (min 255 v)
       | none => c.led_values.led3) := by
  rw [set_led_values_fst]
  cases l1 <;> cases l2 <;> cases l3 <;> simp [apply_led_update]

/-- C5: processing `<J100,200,300,400,500,600>` stores joystick1 = 100
(X = 100, Y = 200), joystick2 = 300 (X = 300, Y = 400), joystick3 = 500
(X = 500, Y = 600), and the next state snapshot sent to a client carries
exactly these values. -/
theorem example_line_updates_state :
    (state_message
      { joystick_values :=
          process_arduino_message initJoystickValues
            "<J100,200,300,400,500,600>".data,
        led_values := initLedValues,
        connected := true,
        serial_connection := true }).joysticks =
      { joystick1 := 100, joystick2 := 300, joystick3 := 500,
        joystick1X := 100, joystick1Y := 200,
        joystick2X := 300, joystick2Y := 400,
        joystick3X := 500, joystick3Y := 600 } := by
  decide

/-- C8: `run_diagnostic` never changes persistent state: for every starting
state whose stored LED values are within their documented range, the full
controller state after the call — LED store, joystick store and connection
status — equals the state before the call (the 128,128,128 test pattern
written while connected is undone by restoring the saved snapshot). -/
theorem run_diagnostic_preserves_state (c : ControllerState) (w1 w2 : Bool)
    (h : ledInRange c.led_values) :
    (run_diagnostic c w1 w2).1 = c := by
  obtain ⟨jv, lv, conn, ser⟩ := c
  obtain ⟨a, b, d⟩ := lv
  obtain ⟨ha1, ha2, hb1, hb2, hd1, hd2⟩ := h
  dsimp only at ha1 ha2 hb1 hb2 hd1 hd2
  unfold run_diagnostic
  dsimp only
  split
  · rw [set_led_values_fst, set_led_values_fst]
    simp [get_led_values, apply_led_update, ControllerState.mk.injEq,
      LedState.mk.injEq]
    omega
  · rfl

/-- C8 (witness): a connected state with in-range LEDs is preserved. -/
theorem run_diagnostic_preserves_state_witness :
    (run_diagnostic ⟨initJoystickValues, ⟨10, 20, 255⟩, true, true⟩
        true true).1 =
      ⟨initJoystickValues, ⟨10, 20, 255⟩, true, true⟩ :=
  run_diagnostic_preserves_state _ _ _ (by decide)

/-- C9: when the controller is not connected (or the serial write fails),
`set_led_values` still applies the clamped updates of the provided channels
to the stored LED state and returns `False`; the boolean reports only the
serial write, so `False` does not mean the store is unchanged. -/
theorem set_led_values_disconnected_updates_store (c : ControllerState)
    (l1 l2 l3 : Option Int) (w : Bool)
    (h : c.connected = false ∨ w = false) :
    (set_led_values c l1 l2 l3 w).2 = false ∧
    (set_led_values c l1 l2 l3 w).1.led_values =
      apply_led_update c.led_values l1 l2 l3 := by
  refine ⟨?_, by rw [set_led_values_fst]⟩
  rw [set_led_values_snd]
  rcases h with h | h <;> simp [h]

/-- C9 (witness): a disconnected write of 5 returns `False` yet updates the
stored LED state. -/
theorem set_led_values_disconnected_updates_store_witness :
    (set_led_values ⟨initJoystickValues, initLedValues, false, true⟩
        (some 5) none none true).2 = false ∧
    (set_led_values ⟨initJoystickValues, initLedValues, false, true⟩
        (some 5) none none true).1.led_values =
      apply_led_update initLedValues (some 5) none none :=
  set_led_values_disconnected_updates_store _ _ _ _ _ (Or.inl rfl)

/-- C10: in the controller, `joystickN = joystickNX` for N ∈ {1,2,3}: the
invariant holds in the initial state (all 512) and is preserved by every
processed message — each primary scalar is always a copy of that axis's X
coordinate. -/
theorem joystick_primary_eq_x_invariant :
    joyPrimaryEqX initJoystickValues ∧
    ∀ (jv : JoyState) (msg : List Char),
      joyPrimaryEqX jv → joyPrimaryEqX (process_arduino_message jv msg) := by
  refine ⟨⟨rfl, rfl, rfl⟩, ?_⟩
  intro jv msg h
  rcases process_arduino_message_cases jv msg with heq | ⟨a, b, c, d, e, f, heq⟩ <;>
    rw [heq]
  · exact h
  · exact ⟨rfl, rfl, rfl⟩

/-- C10 (witness): the invariant holds after processing a frame from the
initial state. -/
theorem joystick_primary_eq_x_invariant_witness :
    joyPrimaryEqX (process_arduino_message initJoystickValues
      "<J1,2,3,4,5,6>".data) :=
  joystick_primary_eq_x_invariant.2 initJoystickValues _
    joystick_primary_eq_x_invariant.1

/-- The invariant behind the reconnection bound: a failed reconnection
attempt leaves the loop disconnected, and while disconnected the loop body
touches no serial object, so neither reconnection path can fire again —
a run of consecutive failed attempts never grows past one. -/
abbrev commInv (s : LoopState) : Prop :=
  s.failedRun = 0 ∨ (s.failedRun = 1 ∧ s.connected = false)

/-- One loop iteration preserves `commInv`. -/
theorem comm_step_inv (ar : Bool) (s : LoopState) (e : LoopEvent)
    (h : commInv s) : commInv (comm_step ar s e) := by
  obtain ⟨run, conn, att, fr⟩ := s
  rcases h with h | ⟨h1, h2⟩
  · dsimp only at h
    subst h
    unfold comm_step
    dsimp only
    repeat' first
      | split
      | (exact Or.inl rfl)
      | (exact Or.inr ⟨rfl, rfl⟩)
  · dsimp only at h1 h2
    subst h1
    subst h2
    unfold comm_step
    dsimp only
    repeat' first
      | split
      | (exact Or.inr ⟨rfl, rfl⟩)
      | simp_all

/-- `commInv` holds along every trace from the loop's entry state. -/
theorem comm_run_inv (ar : Bool) (es : List LoopEvent) :
    ∀ s : LoopState, commInv s → commInv (comm_run ar s es) := by
  induction es with
  | nil => intro s h; exact h
  | cons e rest ih =>
    intro s h
    exact ih (comm_step ar s e) (comm_step_inv ar s e h)

/-- C2: with auto-reconnect enabled, along every trace of the communication
loop from its entry state, the number of consecutive failed reconnection
attempts with no intervening successfully received data never exceeds
`max_reconnect_attempts`: once an attempt fails the loop stays disconnected
and makes no further attempts, so the run length never even passes one. -/
theorem reconnect_attempts_bounded (es : List LoopEvent) :
    (comm_run true initLoopState es).failedRun ≤ max_reconnect_attempts := by
  have h := comm_run_inv true es initLoopState (Or.inl rfl)
  rcases h with h | ⟨h, _⟩ <;> rw [h] <;> decide

/-- Membership after `setDiscard`. -/
theorem mem_setDiscard (l : List Nat) (w x : Nat) :
    x ∈ setDiscard l w ↔ x ∈ l ∧ x ≠ w := by
  simp [setDiscard]

/-- An element is a member after `setAdd`-ing it. -/
theorem mem_setAdd_self (l : List Nat) (a : Nat) : a ∈ setAdd l a := by
  unfold setAdd
  split
  · assumption
  · exact List.mem_cons_self a l

/-- After the broadcast fold, the connected set holds exactly the prior
members that were not a closed-socket target. -/
theorem mem_broadcast_clients (closed : Nat → Bool) :
    ∀ (t : List Nat) (s : ServerState) (d : List Nat) (x : Nat),
      x ∈ (t.foldl (broadcast_step closed) (s, d)).1.clients ↔
        x ∈ s.clients ∧ ¬(x ∈ t ∧ closed x = true) := by
  intro t
  induction t with
  | nil => intro s d x; simp
  | cons w rest ih =>
    intro s d x
    rw [List.foldl_cons]
    cases hcw : closed w
    · have hstep : broadcast_step closed (s, d) w = (s, d ++ [w]) := by
        simp [broadcast_step, send_to_client, hcw]
      rw [hstep, ih]
      by_cases hxw : x = w <;> simp [hxw, hcw]
    · have hstep : broadcast_step closed (s, d) w = (unregister_client s w, d) := by
        simp [broadcast_step, send_to_client, hcw]
      rw [hstep, ih]
      simp only [unregister_client]
      rw [mem_setDiscard]
      by_cases hxw : x = w <;> simp [hxw, hcw]

/-- After the broadcast fold, the authenticated set holds exactly the prior
members that were not a closed-socket target. -/
theorem mem_broadcast_auth (closed : Nat → Bool) :
    ∀ (t : List Nat) (s : ServerState) (d : List Nat) (x : Nat),
      x ∈ (t.foldl (broadcast_step closed) (s, d)).1.authenticated_clients ↔
        x ∈ s.authenticated_clients ∧ ¬(x ∈ t ∧ closed x = true) := by
  intro t
  induction t with
  | nil => intro s d x; simp
  | cons w rest ih =>
    intro s d x
    rw [List.foldl_cons]
    cases hcw : closed w
    · have hstep : broadcast_step closed (s, d) w = (s, d ++ [w]) := by
        simp [broadcast_step, send_to_client, hcw]
      rw [hstep, ih]
      by_cases hxw : x = w <;> simp [hxw, hcw]
    · have hstep : broadcast_step closed (s, d) w = (unregister_client s w, d) := by
        simp [broadcast_step, send_to_client, hcw]
      rw [hstep, ih]
      simp only [unregister_client]
      rw [mem_setDiscard]
      by_cases hxw : x = w <;> simp [hxw, hcw]

/-- After the broadcast fold, the delivered list holds exactly the prior
entries plus every target whose socket was open. -/
theorem mem_broadcast_delivered (closed : Nat → Bool) :
    ∀ (t : List Nat) (s : ServerState) (d : List Nat) (x : Nat),
      x ∈ (t.foldl (broadcast_step closed) (s, d)).2 ↔
        x ∈ d ∨ (x ∈ t ∧ closed x = false) := by
  intro t
  induction t with
  | nil => intro s d x; simp
  | cons w rest ih =>
    intro s d x
    rw [List.foldl_cons]
    cases hcw : closed w
    · have hstep : broadcast_step closed (s, d) w = (s, d ++ [w]) := by
        simp [broadcast_step, send_to_client, hcw]
      rw [hstep, ih]
      by_cases hxw : x = w <;> simp [hxw, hcw]
    · have hstep : broadcast_step closed (s, d) w = (unregister_client s w, d) := by
        simp [broadcast_step, send_to_client, hcw]
      rw [hstep, ih]
      by_cases hxw : x = w <;> simp [hxw, hcw]

/-- C6: in a broadcast to the authenticated targets in which exactly one
target `f` has a closed socket, every other target is delivered the event,
and `f` is removed from both the connected set and the authenticated set —
one client's failure never prevents delivery to the others. -/
theorem broadcast_isolates_failures (s : ServerState) (closed : Nat → Bool)
    (f : Nat) (hf : f ∈ s.authenticated_clients) (hcf : closed f = true)
    (hothers : ∀ w ∈ s.authenticated_clients, w ≠ f → closed w = false) :
    (∀ w ∈ s.authenticated_clients, w ≠ f →
       w ∈ (send_to_all_clients s closed true).2) ∧
    f ∉ (send_to_all_clients s closed true).1.clients ∧
    f ∉ (send_to_all_clients s closed true).1.authenticated_clients := by
  unfold send_to_all_clients
  simp only [if_true]
  refine ⟨?_, ?_, ?_⟩
  · intro w hw hwf
    rw [mem_broadcast_delivered]
    exact Or.inr ⟨hw, hothers w hw hwf⟩
  · rw [mem_broadcast_clients]
    rintro ⟨-, hn⟩
    exact hn ⟨hf, hcf⟩
  · rw [mem_broadcast_auth]
    rintro ⟨-, hn⟩
    exact hn ⟨hf, hcf⟩

/-- C6 (witness): with sessions {1, 2} and session 2's socket closed,
session 1 is delivered to and session 2 is removed from both sets. -/
theorem broadcast_isolates_failures_witness :
    (∀ w ∈ (⟨[1, 2], [1, 2], fun _ => none, []⟩ : ServerState).authenticated_clients,
       w ≠ 2 →
       w ∈ (send_to_all_clients ⟨[1, 2], [1, 2], fun _ => none, []⟩
              (fun n => decide (n = 2)) true).2) ∧
    2 ∉ (send_to_all_clients ⟨[1, 2], [1, 2], fun _ => none, []⟩
           (fun n => decide (n = 2)) true).1.clients ∧
    2 ∉ (send_to_all_clients ⟨[1, 2], [1, 2], fun _ => none, []⟩
           (fun n => decide (n = 2)) true).1.authenticated_clients :=
  broadcast_isolates_failures _ _ 2 (by decide) (by decide) (by decide)

/-- C7: `authenticate_client` succeeds iff the token is non-empty; success
adds the session to the authenticated set and marks its metadata entry
authenticated, with `is_admin` true exactly when the token equals the
configured admin token; an empty token leaves the whole state unchanged,
and the connected set is never touched (the connection stays open). -/
theorem authenticate_client_spec (s : ServerState) (w : Nat)
    (token : List Char) :
    ((authenticate_client s w token).2 = true ↔ token ≠ []) ∧
    (authenticate_client s w token).1.clients = s.clients ∧
    (token ≠ [] →
      w ∈ (authenticate_client s w token).1.authenticated_clients ∧
      ∀ i, s.client_info w = some i →
        (authenticate_client s w token).1.client_info w =
          some { i with authenticated := true,
                        is_admin := decide (token = s.admin_token) }) ∧
    (token = [] → (authenticate_client s w token).1 = s) := by
  by_cases h : token = []
  · simp [authenticate_client, h]
  · refine ⟨by simp [authenticate_client, h], by simp [authenticate_client, h],
      fun _ => ⟨?_, fun i hi => ?_⟩, fun he => absurd he h⟩
    · simp [authenticate_client, h, mem_setAdd_self]
    · simp [authenticate_client, h, hi]

/-- C7 (witness): a non-empty non-admin token authenticates. -/
theorem authenticate_client_spec_witness :
    (authenticate_client
        ⟨[7], [], fun _ => some ⟨false, false⟩, "lockbox-admin".data⟩
        7 "token".data).2 = true :=
  (authenticate_client_spec _ 7 _).1.mpr (by decide)

/-- C4: any line that does not match the inbound shape — `<`, then `J`,
then six comma-separated integer fields, then `>` (wrong delimiters, a
different tag, a different value count, or a field the integer conversion
rejects) — leaves the stored joystick values completely unchanged.  The
code converts all six fields before the first store and catches every
parse error, so there is no partial update and no exception escapes; the
embedding being a total function returning the old state captures both. -/
theorem nonmatching_line_ignored (jv : JoyState) (msg : List Char)
    (h : matchesInboundShape msg = false) :
    process_arduino_message jv msg = jv := by
  unfold process_arduino_message
  dsimp only
  split
  case isTrue => rfl
  case isFalse hne =>
  split
  case isFalse => rfl
  case isTrue hdelim =>
  split
  case isFalse => rfl
  case isTrue hJ =>
  split
  all_goals try rfl
  split
  all_goals try rfl
  simp_all [matchesInboundShape]

/-- C4 (witness): a line with the wrong tag is ignored. -/
theorem nonmatching_line_ignored_witness :
    matchesInboundShape "<X100,200,300,400,500,600>".data = false ∧
    process_arduino_message initJoystickValues
        "<X100,200,300,400,500,600>".data = initJoystickValues :=
  ⟨by decide,
   nonmatching_line_ignored initJoystickValues
     "<X100,200,300,400,500,600>".data (by decide)⟩

end Lockbox
